import Mathlib

/-!
Verification of the OpenClaw subagent orchestration control plane.

Shallow embedding of:
 - the session key model (src/sessions/session-key-utils.ts);
 - the subagent depth resolution (src/agents/subagent-depth.ts);
 - the timeout resolver (src/agents/timeout.ts);
 - the spawn admission check (src/config/resource-control.ts);
 - the run registry / steer-restart protocol (subagent-registry.ts is not in
   the snapshot; modelled from the spec, see the doc comments below).

JavaScript numbers are modelled as rationals where fractional inputs matter
and as integers after normalization (the source floors every number input).
JavaScript string primitives (trim, split, toLowerCase, regex match count)
are embedded charwise over String.data so that every definition evaluates
by kernel reduction.
-/

/-- JS String.prototype.trim: drop whitespace from both ends. -/
def jsTrim (s : String) : String :=
  String.mk (((s.data.dropWhile Char.isWhitespace).reverse.dropWhile Char.isWhitespace).reverse)

/-- JS String.prototype.split with a single-character separator: "a:b" gives
["a", "b"], "" gives [""], ":" gives ["", ""]. -/
def splitOnCharAux (sep : Char) : List Char → List Char → List String
  | [], acc => [String.mk acc.reverse]
  | c :: cs, acc =>
      if c = sep then String.mk acc.reverse :: splitOnCharAux sep cs []
      else splitOnCharAux sep cs (c :: acc)

/-- JS split(sep) for a one-character separator. -/
def splitOnChar (sep : Char) (s : String) : List String :=
  splitOnCharAux sep s.data []

/-- JS Array.prototype.join(":"). -/
def joinColon : List String → String
  | [] => ""
  | [p] => p
  | p :: rest => p ++ ":" ++ joinColon rest

/-- JS String.prototype.toLowerCase (ASCII, which is all the source compares). -/
def jsToLower (s : String) : String :=
  String.mk (s.data.map Char.toLower)

/-- Count of the non-overlapping occurrences of a pattern in a character list,
scanning left to right — the number of matches of a global regex for a fixed
string pattern in JS. The skip argument is the number of positions still inside
the previous match. -/
def countNonOverlappingAux (pat : List Char) : List Char → Nat → Nat
  | [], _ => 0
  | _ :: cs, Nat.succ k => countNonOverlappingAux pat cs k
  | c :: cs, 0 =>
      if pat.isPrefixOf (c :: cs) then 1 + countNonOverlappingAux pat cs (pat.length - 1)
      else countNonOverlappingAux pat cs 0

/-- Number of matches of a fixed-string global regex in a JS string. -/
def countNonOverlapping (pat : String) (s : String) : Nat :=
  countNonOverlappingAux pat.data s.data 0

namespace SessionKeyUtils

/-- Parsed form of an agent session key, from parseAgentSessionKey in
src/sessions/session-key-utils.ts. -/
structure ParsedAgentSessionKey where
  agentId : String
  rest : String
  deriving Repr, DecidableEq

/-- Embedding of parseAgentSessionKey: trim, split on ":" discarding empty
segments (the filter(Boolean) of the source), require at least 3 segments,
a literal "agent" head, a nonempty agent id and a nonempty rest. -/
def parseAgentSessionKey (sessionKey : Option String) : Option ParsedAgentSessionKey :=
  let raw := jsTrim (sessionKey.getD "")
  if raw = "" then none
  else
    let parts := (splitOnChar ':' raw).filter (fun s => s != "")
    if parts.length < 3 then none
    else if parts.head? ≠ some "agent" then none
    else
      let agentId := jsTrim ((parts.get? 1).getD "")
      let rest := joinColon (parts.drop 2)
      if agentId = "" ∨ rest = "" then none
      else some ⟨agentId, rest⟩

/-- Embedding of getSubagentDepth from src/sessions/session-key-utils.ts: on a
parsed key it counts the matches of the global regex ":subagent:" in the
lowercased rest; a null match gives 0. -/
def getSubagentDepth (sessionKey : Option String) : Nat :=
  let raw := jsTrim (sessionKey.getD "")
  if raw = "" then 0
  else
    match parseAgentSessionKey (some raw) with
    | none => 0
    | some parsed => countNonOverlapping ":subagent:" (jsToLower parsed.rest)

end SessionKeyUtils

/-- C4: evaluating the source depth function at the claim's example keys: the
depth-1 key "agent:main:subagent:abc" yields 0 and the depth-2 key yields 1 —
one less than the claim, the function's own doc comment and the tests in
src/sessions/session-key-utils.test.ts state (the regex ":subagent:" misses the
first subagent segment, which follows the agent id without a leading colon in
the rest). The zero cases of the claim do hold. -/
theorem getSubagentDepth_eval_at_failing_inputs :
    SessionKeyUtils.getSubagentDepth (some "agent:main:subagent:abc") = 0 ∧
    SessionKeyUtils.getSubagentDepth (some "agent:main:subagent:abc:subagent:def") = 1 ∧
    SessionKeyUtils.getSubagentDepth (some "agent:main:main") = 0 ∧
    SessionKeyUtils.getSubagentDepth none = 0 ∧
    SessionKeyUtils.getSubagentDepth (some "") = 0 ∧
    SessionKeyUtils.getSubagentDepth (some "main") = 0 := by
  refine ⟨?_, ?_, ?_, ?_, ?_, ?_⟩ <;> decide

/-! ## Timeout resolver (src/agents/timeout.ts) -/

/-- Provider entry of models.providers in the resolved configuration; only the
fields the timeout resolver reads. -/
structure ModelProviderConfig where
  timeoutMs : Option ℚ
  timeout : Option ℚ
  deriving Repr

/-- models section of the configuration; providers is an ordered key-value
record (Object.entries order). -/
structure ModelsConfig where
  providers : Option (List (String × ModelProviderConfig))
  deriving Repr

/-- Per-agent subagents section of the configuration. -/
structure SubagentsConfig where
  maxSpawnDepth : Option Int
  maxConcurrent : Option Int
  maxChildrenPerAgent : Option Nat
  archiveAfterMinutes : Option Int
  deriving Repr

/-- agents.defaults section of the configuration. -/
structure AgentDefaults where
  timeoutSeconds : Option ℚ
  subagents : Option SubagentsConfig
  deriving Repr

/-- One entry of agents.list. -/
structure AgentEntry where
  id : String
  subagents : Option SubagentsConfig
  deriving Repr

/-- agents section of the configuration. -/
structure AgentsConfig where
  defaults : Option AgentDefaults
  list : Option (List AgentEntry)
  deriving Repr

/-- The parts of the resolved OpenClawConfig that the control plane reads. -/
structure OpenClawConfig where
  agents : Option AgentsConfig
  models : Option ModelsConfig
  deriving Repr

/-- DEFAULT_AGENT_TIMEOUT_SECONDS from src/agents/timeout.ts. -/
def DEFAULT_AGENT_TIMEOUT_SECONDS : Int := 600

/-- MAX_SAFE_TIMEOUT_MS from src/agents/timeout.ts. -/
def MAX_SAFE_TIMEOUT_MS : Int := 2147000000

/-- normalizeNumber from src/agents/timeout.ts: a finite number is floored,
anything else is undefined. Rationals model the finite JS numbers. -/
def normalizeNumber (value : Option ℚ) : Option Int :=
  value.map (fun q => ⌊q⌋)

/-- Embedding of resolveAgentTimeoutSeconds. -/
def resolveAgentTimeoutSeconds (cfg : Option OpenClawConfig) : Int :=
  let raw := normalizeNumber ((cfg.bind (fun c => c.agents)).bind (fun a => a.defaults)
    |>.bind (fun d => d.timeoutSeconds))
  let seconds := raw.getD DEFAULT_AGENT_TIMEOUT_SECONDS
  max seconds 1

/-- Embedding of resolveProviderTimeoutMs. The provider-id normalization
(normalizeProviderId of src/agents/model-selection.ts, not in the snapshot) is
injected as a pure function norm, as the spec directs. The source first tries
the exact provider key's timeoutMs; on a miss it searches the entries whose
normalized key matches when the provider name is already normalized, else it
retries under the normalized key. -/
def resolveProviderTimeoutMs (norm : String → String) (cfg : Option OpenClawConfig)
    (provider : Option String) : Option Int :=
  match provider, (cfg.bind (fun c => c.models)).bind (fun m => m.providers) with
  | none, _ => none
  | _, none => none
  | some p, some providers =>
    match (List.lookup p providers).bind (fun d => d.timeoutMs) with
    | some t => normalizeNumber (some t)
    | none =>
      let normalized := norm p
      if normalized = p then
        let matched := providers.find? (fun kv => norm kv.1 == normalized)
        normalizeNumber (matched.bind (fun kv => kv.2.timeoutMs))
      else
        normalizeNumber ((List.lookup normalized providers).bind (fun d => d.timeoutMs))

/-- Options record of resolveAgentTimeoutMs; null and undefined overrides both
fail the typeof-number test in the source, so one Option level models both. -/
structure TimeoutOpts where
  cfg : Option OpenClawConfig
  overrideMs : Option ℚ
  overrideSeconds : Option ℚ
  minMs : Option ℚ
  provider : Option String

/-- The effective floor: max(normalizeNumber(opts.minMs) ?? 1, 1). -/
def effectiveMinMs (opts : TimeoutOpts) : Int :=
  max ((normalizeNumber opts.minMs).getD 1) 1

/-- clampTimeoutMs closure from the source: clamp into the band between the
effective floor and MAX_SAFE_TIMEOUT_MS. -/
def clampTimeoutMs (minMs v : Int) : Int :=
  min (max v minMs) MAX_SAFE_TIMEOUT_MS

/-- defaultMs of the source: provider-level timeoutMs if resolvable, else the
agent-default seconds times 1000, clamped. -/
def defaultTimeoutMs (norm : String → String) (opts : TimeoutOpts) : Int :=
  clampTimeoutMs (effectiveMinMs opts)
    ((resolveProviderTimeoutMs norm opts.cfg opts.provider).getD
      (resolveAgentTimeoutSeconds opts.cfg * 1000))

/-- Embedding of resolveAgentTimeoutMs: a normalized override of exactly 0 is
the no-timeout sentinel resolving to MAX_SAFE_TIMEOUT_MS, a negative one falls
back to defaultMs, a positive one is clamped; overrideMs takes precedence over
overrideSeconds (times 1000); with no override the default applies. -/
def resolveAgentTimeoutMs (norm : String → String) (opts : TimeoutOpts) : Int :=
  match normalizeNumber opts.overrideMs with
  | some o =>
      if o = 0 then MAX_SAFE_TIMEOUT_MS
      else if o < 0 then defaultTimeoutMs norm opts
      else clampTimeoutMs (effectiveMinMs opts) o
  | none =>
    match normalizeNumber opts.overrideSeconds with
    | some o =>
        if o = 0 then MAX_SAFE_TIMEOUT_MS
        else if o < 0 then defaultTimeoutMs norm opts
        else clampTimeoutMs (effectiveMinMs opts) (o * 1000)
    | none => defaultTimeoutMs norm opts

/-- Every clamped value lies between min(floor, MAX) and MAX. -/
theorem clampTimeoutMs_bounds (m v : Int) :
    min m MAX_SAFE_TIMEOUT_MS ≤ clampTimeoutMs m v ∧
    clampTimeoutMs m v ≤ MAX_SAFE_TIMEOUT_MS := by
  unfold clampTimeoutMs MAX_SAFE_TIMEOUT_MS
  constructor <;> omega

/-- C5 (amended): resolveAgentTimeoutMs is total and its result always lies in
the band between min(minMs, MAX_SAFE_TIMEOUT_MS) and MAX_SAFE_TIMEOUT_MS — so
within the claimed band whenever the effective minMs does not itself exceed the
2147000000 ceiling; and the claim's concrete scenario holds: a provider with
timeoutMs 9999999999 and minMs 1000 resolves to exactly 2147000000. -/
theorem resolveAgentTimeoutMs_total_and_in_range :
    (∀ (norm : String → String) (opts : TimeoutOpts),
      min (effectiveMinMs opts) MAX_SAFE_TIMEOUT_MS ≤ resolveAgentTimeoutMs norm opts ∧
      resolveAgentTimeoutMs norm opts ≤ MAX_SAFE_TIMEOUT_MS) ∧
    resolveAgentTimeoutMs id
      { cfg := some { agents := none,
                      models := some { providers := some [("openai",
                        { timeoutMs := some 9999999999, timeout := none })] } },
        overrideMs := none, overrideSeconds := none, minMs := some 1000,
        provider := some "openai" } = 2147000000 := by
  constructor
  · intro norm opts
    have hd : min (effectiveMinMs opts) MAX_SAFE_TIMEOUT_MS ≤ defaultTimeoutMs norm opts ∧
        defaultTimeoutMs norm opts ≤ MAX_SAFE_TIMEOUT_MS := by
      unfold defaultTimeoutMs
      exact clampTimeoutMs_bounds _ _
    have hmax : min (effectiveMinMs opts) MAX_SAFE_TIMEOUT_MS ≤ MAX_SAFE_TIMEOUT_MS ∧
        MAX_SAFE_TIMEOUT_MS ≤ MAX_SAFE_TIMEOUT_MS := ⟨min_le_right _ _, le_refl _⟩
    unfold resolveAgentTimeoutMs
    rcases normalizeNumber opts.overrideMs with _ | o
    · rcases normalizeNumber opts.overrideSeconds with _ | o
      · exact hd
      · dsimp only
        split_ifs
        · exact hmax
        · exact hd
        · exact clampTimeoutMs_bounds _ _
    · dsimp only
      split_ifs
      · exact hmax
      · exact hd
      · exact clampTimeoutMs_bounds _ _
  · decide

/-- C5 counterexample: the claim's band [minMs, MAX_SAFE_TIMEOUT_MS] fails for
a minMs above the ceiling: with minMs 3000000000 the resolver returns the
ceiling 2147000000, which is below minMs. -/
theorem resolveAgentTimeoutMs_range_counterexample :
    resolveAgentTimeoutMs id
      { cfg := none, overrideMs := none, overrideSeconds := none,
        minMs := some 3000000000, provider := none } = 2147000000 ∧
    ¬ ((3000000000 : Int) ≤ resolveAgentTimeoutMs id
      { cfg := none, overrideMs := none, overrideSeconds := none,
        minMs := some 3000000000, provider := none }) := by
  constructor <;> decide

/-- C6 (amended): for an explicit override (overrideMs, else overrideSeconds
whose value is scaled by 1000) the resolver acts on the floored value: floor 0
is the no-timeout sentinel resolving to MAX_SAFE_TIMEOUT_MS (so any value in
(0, 1) is treated as the sentinel, not clamped), a negative floor silently
falls back to the computed default, and a positive floor is clamped into the
band between minMs and MAX_SAFE_TIMEOUT_MS. -/
theorem resolveAgentTimeoutMs_override_floor_semantics
    (norm : String → String) (opts : TimeoutOpts) (q : ℚ) :
    (opts.overrideMs = some q →
      ((⌊q⌋ = 0 → resolveAgentTimeoutMs norm opts = MAX_SAFE_TIMEOUT_MS) ∧
       (⌊q⌋ < 0 → resolveAgentTimeoutMs norm opts = defaultTimeoutMs norm opts) ∧
       (0 < ⌊q⌋ → resolveAgentTimeoutMs norm opts =
          clampTimeoutMs (effectiveMinMs opts) ⌊q⌋))) ∧
    (opts.overrideMs = none → opts.overrideSeconds = some q →
      ((⌊q⌋ = 0 → resolveAgentTimeoutMs norm opts = MAX_SAFE_TIMEOUT_MS) ∧
       (⌊q⌋ < 0 → resolveAgentTimeoutMs norm opts = defaultTimeoutMs norm opts) ∧
       (0 < ⌊q⌋ → resolveAgentTimeoutMs norm opts =
          clampTimeoutMs (effectiveMinMs opts) (⌊q⌋ * 1000)))) := by
  constructor
  · intro h
    refine ⟨?_, ?_, ?_⟩ <;> intro hq <;>
      simp only [resolveAgentTimeoutMs, normalizeNumber, h, Option.map_some'] <;>
      split_ifs <;> first | rfl | omega
  · intro h1 h2
    refine ⟨?_, ?_, ?_⟩ <;> intro hq <;>
      simp only [resolveAgentTimeoutMs, normalizeNumber, h1, h2, Option.map_some',
        Option.map_none'] <;>
      split_ifs <;> first | rfl | omega

/-- C6 witness: the positive integer override 5000 with the default floor
resolves to 5000, through the clamp branch of the theorem. -/
theorem resolveAgentTimeoutMs_override_floor_semantics_witness :
    resolveAgentTimeoutMs id
      { cfg := none, overrideMs := some 5000, overrideSeconds := none,
        minMs := none, provider := none } = 5000 := by
  have h := ((resolveAgentTimeoutMs_override_floor_semantics id
    { cfg := none, overrideMs := some 5000, overrideSeconds := none,
      minMs := none, provider := none } 5000).1 rfl).2.2 (by decide)
  exact h.trans (by decide)

/-- C6 counterexample: the positive override 0.5 does not resolve to
clamp(0.5, minMs, MAX_SAFE_TIMEOUT_MS) (which would be 1000 under minMs 1000):
it is floored to the sentinel 0 and resolves to 2147000000. -/
theorem resolveAgentTimeoutMs_positive_clamp_counterexample :
    resolveAgentTimeoutMs id
      { cfg := none, overrideMs := some (1/2), overrideSeconds := none,
        minMs := some 1000, provider := none } = 2147000000 ∧
    ¬ ((2147000000 : ℚ) = min (max (1/2 : ℚ) 1000) 2147000000) := by
  constructor
  · have h : normalizeNumber (some (1/2 : ℚ)) = some 0 := by
      simp only [normalizeNumber, Option.map_some']
      norm_num
    unfold resolveAgentTimeoutMs
    dsimp only
    rw [h]
    decide
  · norm_num

/-- C10: an override strictly between 0 and 1 — whether given as overrideMs or
as overrideSeconds — is floored to 0 before the sentinel check and therefore
resolves to MAX_SAFE_TIMEOUT_MS rather than being clamped up to minMs. -/
theorem fractional_override_resolves_to_sentinel
    (norm : String → String) (opts : TimeoutOpts) (q : ℚ)
    (h0 : 0 < q) (h1 : q < 1) :
    (opts.overrideMs = some q →
      resolveAgentTimeoutMs norm opts = MAX_SAFE_TIMEOUT_MS) ∧
    (opts.overrideMs = none → opts.overrideSeconds = some q →
      resolveAgentTimeoutMs norm opts = MAX_SAFE_TIMEOUT_MS) := by
  have hf : ⌊q⌋ = 0 := by
    rw [Int.floor_eq_zero_iff]
    exact ⟨h0.le, h1⟩
  constructor
  · intro h
    exact ((resolveAgentTimeoutMs_override_floor_semantics norm opts q).1 h).1 hf
  · intro hm hs
    exact ((resolveAgentTimeoutMs_override_floor_semantics norm opts q).2 hm hs).1 hf

/-- C10 witness: overrideMs 0.5 resolves to the sentinel value 2147000000. -/
theorem fractional_override_resolves_to_sentinel_witness :
    resolveAgentTimeoutMs id
      { cfg := none, overrideMs := some (1/2), overrideSeconds := none,
        minMs := none, provider := none } = MAX_SAFE_TIMEOUT_MS :=
  (fractional_override_resolves_to_sentinel id
    { cfg := none, overrideMs := some (1/2), overrideSeconds := none,
      minMs := none, provider := none } (1/2) (by norm_num) (by norm_num)).1 rfl

/-! ## Admission controller (src/config/resource-control.ts) -/

namespace RoutingSessionKey

/-- Modelled from the spec: resource-control.ts imports its depth function from
src/routing/session-key.ts, which is not in the snapshot. Section 4.1 of the
spec defines it: count the occurrences of the subagent marker segment in the
path portion following the agent identifier, with parse failure meaning
depth 0. -/
def getSubagentDepth (sessionKey : Option String) : Nat :=
  match SessionKeyUtils.parseAgentSessionKey sessionKey with
  | none => 0
  | some parsed => ((splitOnChar ':' parsed.rest).filter (fun s => s == "subagent")).length

end RoutingSessionKey

/-- Modelled from the spec: resolveAgentConfig (src/agents/agent-scope.ts is
not in the snapshot) returns the requesting agent's own config entry, looked up
by id in agents.list. -/
def resolveAgentConfig (cfg : OpenClawConfig) (agentId : String) : Option AgentEntry :=
  (cfg.agents.bind (fun a => a.list)).bind (fun l => l.find? (fun e => e.id == agentId))

/-- The maxSpawnDepth resolution chain of canSpawnSubagent: agent-default
subagents.maxSpawnDepth, else the requesting agent's own override, else the
hard default 2. -/
def resolvedMaxSpawnDepth (cfg : OpenClawConfig) (agentId : String) : Int :=
  ((((cfg.agents.bind (fun a => a.defaults)).bind (fun d => d.subagents)).bind
      (fun s => s.maxSpawnDepth)) <|>
    (((resolveAgentConfig cfg agentId).bind (fun e => e.subagents)).bind
      (fun s => s.maxSpawnDepth))).getD 2

/-- Result record of canSpawnSubagent. -/
structure SpawnCheck where
  allowed : Bool
  reason : Option String
  currentDepth : Nat
  maxDepth : Int
  deriving Repr

/-- Embedding of canSpawnSubagent from src/config/resource-control.ts: compute
the requester's depth, resolve maxSpawnDepth, deny with a forbidden-style
result carrying both numbers when currentDepth is at least maxSpawnDepth. -/
def canSpawnSubagent (cfg : OpenClawConfig) (requesterSessionKey : Option String)
    (requesterAgentId : String) : SpawnCheck :=
  let currentDepth := RoutingSessionKey.getSubagentDepth requesterSessionKey
  let maxSpawnDepth := resolvedMaxSpawnDepth cfg requesterAgentId
  if (currentDepth : Int) ≥ maxSpawnDepth then
    { allowed := false,
      reason := some ("Maximum spawn depth (" ++ toString maxSpawnDepth ++
        ") exceeded. Current depth: " ++ toString currentDepth ++ "."),
      currentDepth := currentDepth, maxDepth := maxSpawnDepth }
  else
    { allowed := true, reason := none,
      currentDepth := currentDepth, maxDepth := maxSpawnDepth }

/-- C3: the admission check carries the resolved depth metadata, denies
whenever the requester's depth has reached the effective maxSpawnDepth and
admits whenever it is exactly one below it; with the default maxSpawnDepth 2
a depth-1 requester is admitted and a depth-2 requester is denied. -/
theorem canSpawnSubagent_depth_gate (cfg : OpenClawConfig) (key : Option String)
    (agentId : String) :
    (canSpawnSubagent cfg key agentId).currentDepth =
      RoutingSessionKey.getSubagentDepth key ∧
    (canSpawnSubagent cfg key agentId).maxDepth = resolvedMaxSpawnDepth cfg agentId ∧
    ((resolvedMaxSpawnDepth cfg agentId ≤ (RoutingSessionKey.getSubagentDepth key : Int)) →
      (canSpawnSubagent cfg key agentId).allowed = false ∧
      (canSpawnSubagent cfg key agentId).reason.isSome = true) ∧
    (((RoutingSessionKey.getSubagentDepth key : Int) =
        resolvedMaxSpawnDepth cfg agentId - 1) →
      (canSpawnSubagent cfg key agentId).allowed = true) := by
  simp only [canSpawnSubagent]
  split_ifs with h
  · refine ⟨rfl, rfl, fun _ => ⟨rfl, rfl⟩, fun hd => ?_⟩
    omega
  · refine ⟨rfl, rfl, fun hd => absurd hd ?_, fun _ => rfl⟩
    omega

/-- Agent-default configuration with maxSpawnDepth 2, for the C3 witness. -/
def cfgMaxDepthTwo : OpenClawConfig :=
  { agents := some
      { defaults := some
          { timeoutSeconds := none,
            subagents := some
              { maxSpawnDepth := some 2,
                maxConcurrent := none,
                maxChildrenPerAgent := none,
                archiveAfterMinutes := none } },
        list := none },
    models := none }

/-- C3 witness: under agent-default maxSpawnDepth 2, the depth-2 requester key
is denied while the depth-1 requester key is admitted. -/
theorem canSpawnSubagent_depth_gate_witness :
    (canSpawnSubagent cfgMaxDepthTwo
      (some "agent:main:subagent:a:subagent:b") "main").allowed = false ∧
    (canSpawnSubagent cfgMaxDepthTwo
      (some "agent:main:subagent:a") "main").allowed = true := by
  constructor
  · exact ((canSpawnSubagent_depth_gate cfgMaxDepthTwo _ _).2.2.1 (by decide)).1
  · exact (canSpawnSubagent_depth_gate cfgMaxDepthTwo _ _).2.2.2 (by decide)

/-! ## Session-store depth resolution (src/agents/subagent-depth.ts) -/

/-- A JS value that may sit in a session-store entry's spawnDepth field:
a finite number, a string, or anything else. -/
inductive StoreValue where
  | num : ℚ → StoreValue
  | str : String → StoreValue
  | other : StoreValue
  deriving Repr, DecidableEq

/-- A session-store entry; spawnDepth may be absent. -/
structure StoreEntry where
  spawnDepth : Option StoreValue
  deriving Repr, DecidableEq

/-- JS Number(s) restricted to the strings that can pass the integer-and
nonnegative guard below: a digit string parses to that natural number; every
other string is modelled as NaN (none), which the guard rejects just as the
source does. -/
def jsNumberOfDigits (s : String) : Option Nat :=
  if s.data ≠ [] ∧ s.data.all (fun c => c.isDigit) then
    some (s.data.foldl (fun n c => n * 10 + (c.toNat - 48)) 0)
  else none

/-- Embedding of normalizeSpawnDepth from src/agents/subagent-depth.ts: a
number that is a nonnegative integer passes through; a string is trimmed,
rejected when empty, else parsed with Number and accepted under the same
integer-and-nonnegative guard; anything else is undefined. -/
def normalizeSpawnDepth : Option StoreValue → Option Nat
  | some (StoreValue.num q) => if q.den = 1 ∧ 0 ≤ q then some q.num.toNat else none
  | some (StoreValue.str s) =>
      let trimmed := jsTrim s
      if trimmed = "" then none
      else jsNumberOfDigits trimmed
  | some StoreValue.other => none
  | none => none

/-- Embedding of getSubagentDepthFromSessionStore for a caller-supplied store
(the opts.store path of the source; the cfg path that reads the store from
disk is I/O and outside the embedding): trim the key, compute the
segment-counting fallback, return it for empty or unparsable keys, else prefer
a normalized stored spawnDepth over the fallback. -/
def getSubagentDepthFromSessionStore (sessionKey : Option String)
    (store : Option (List (String × StoreEntry))) : Nat :=
  let raw := jsTrim (sessionKey.getD "")
  let fallbackDepth := SessionKeyUtils.getSubagentDepth (some raw)
  if raw = "" then fallbackDepth
  else
    match SessionKeyUtils.parseAgentSessionKey (some raw) with
    | none => fallbackDepth
    | some _ =>
      let storedDepth := normalizeSpawnDepth
        ((store.bind (fun st => List.lookup raw st)).bind (fun e => e.spawnDepth))
      storedDepth.getD fallbackDepth

/-- C9: for an agent session key whose store entry carries a nonnegative
integer spawnDepth, the stored value wins; a negative or non-integer stored
number, a missing spawnDepth field, or a missing entry falls back to the
segment-counting depth. -/
theorem getSubagentDepthFromSessionStore_precedence
    (k : String) (st : List (String × StoreEntry))
    (hk : jsTrim k = k)
    (hp : (SessionKeyUtils.parseAgentSessionKey (some k)).isSome = true) :
    (∀ e : StoreEntry, List.lookup k st = some e →
      (∀ n : Nat, e.spawnDepth = some (StoreValue.num (n : ℚ)) →
        getSubagentDepthFromSessionStore (some k) (some st) = n) ∧
      (∀ q : ℚ, e.spawnDepth = some (StoreValue.num q) → (q < 0 ∨ q.den ≠ 1) →
        getSubagentDepthFromSessionStore (some k) (some st) =
          SessionKeyUtils.getSubagentDepth (some k)) ∧
      (e.spawnDepth = none →
        getSubagentDepthFromSessionStore (some k) (some st) =
          SessionKeyUtils.getSubagentDepth (some k))) ∧
    (List.lookup k st = none →
      getSubagentDepthFromSessionStore (some k) (some st) =
        SessionKeyUtils.getSubagentDepth (some k)) := by
  have hne : k ≠ "" := by
    intro h
    rw [h] at hp
    simp [SessionKeyUtils.parseAgentSessionKey, jsTrim] at hp
  obtain ⟨p, hp'⟩ := Option.isSome_iff_exists.mp hp
  simp only [getSubagentDepthFromSessionStore, Option.getD_some, hk, hp', if_neg hne]
  constructor
  · intro e he
    refine ⟨?_, ?_, ?_⟩
    · intro n hn
      simp [he, hn, normalizeSpawnDepth, Rat.den_natCast, Int.toNat_natCast]
    · intro q hq hbad
      have : ¬ (q.den = 1 ∧ 0 ≤ q) := by
        rcases hbad with h1 | h1
        · exact fun hc => absurd hc.2 (not_le.mpr h1)
        · exact fun hc => absurd hc.1 h1
      simp [he, hq, normalizeSpawnDepth, if_neg this]
    · intro hnone
      simp [he, hnone, normalizeSpawnDepth]
  · intro hnone
    simp [hnone, normalizeSpawnDepth]

/-- C9 witness: the stored spawnDepth 2 wins over the segment-counting
fallback for the store of the subagent-depth test. -/
theorem getSubagentDepthFromSessionStore_precedence_witness :
    getSubagentDepthFromSessionStore (some "agent:main:subagent:flat")
      (some [("agent:main:subagent:flat",
        { spawnDepth := some (StoreValue.num 2) })]) = 2 := by
  exact ((getSubagentDepthFromSessionStore_precedence "agent:main:subagent:flat"
    [("agent:main:subagent:flat", { spawnDepth := some (StoreValue.num 2) })]
    (by decide) (by decide)).1
    { spawnDepth := some (StoreValue.num 2) } (by decide)).1 2 (by norm_num)

/-! ## Run registry and steer-restart protocol

src/agents/subagent-registry.ts and the sessions-spawn tool are not in the
snapshot — only their tests are. The registry state machine below is modelled
from the spec (sections 4.4, 4.5 and 6): runs are registered active, a
terminal lifecycle event announces the run unless a steer-restart mark
suppresses it, replacement transfers announce ownership to the successor run,
and clearing an abandoned mark retroactively releases the suppressed
announce. Announce dispatches are returned as the list of childRunId values
handed to the announce flow. -/

/-- Terminal outcome of a run. -/
inductive RunOutcome where
  | ok : RunOutcome
  | error : String → RunOutcome
  deriving Repr, DecidableEq

/-- The spec argument of registerSubagentRun, as the steer-restart tests
build it. -/
structure SubagentRunSpec where
  runId : String
  childSessionKey : String
  requesterSessionKey : String
  requesterDisplayKey : String
  task : String
  cleanup : String
  deriving Repr, DecidableEq

/-- Modelled from the spec: one run record of the registry (section 3's Run),
with the lifecycle bookkeeping of section 4.4: active is true while the run is
registered, active or steer-pending and false once terminated or replaced
away; steerRestart is the suppression mark; endedWhileSuppressed records that
a terminal event was consumed silently while the mark was set. -/
structure SubagentRun where
  runId : String
  childSessionKey : String
  requesterSessionKey : String
  requesterDisplayKey : String
  task : String
  cleanup : String
  steerRestart : Bool
  endedWhileSuppressed : Bool
  outcome : Option RunOutcome
  cleanupHandled : Bool
  cleanupCompletedAt : Option Nat
  active : Bool
  deriving Repr, DecidableEq

/-- The registry: the in-memory collection of run records, newest first. -/
abbrev Registry := List SubagentRun

/-- A freshly registered run record. -/
def runOfSpec (s : SubagentRunSpec) : SubagentRun :=
  { runId := s.runId, childSessionKey := s.childSessionKey,
    requesterSessionKey := s.requesterSessionKey,
    requesterDisplayKey := s.requesterDisplayKey,
    task := s.task, cleanup := s.cleanup,
    steerRestart := false, endedWhileSuppressed := false,
    outcome := none, cleanupHandled := false, cleanupCompletedAt := none,
    active := true }

/-- Modelled from the spec: registerSubagentRun creates an active run record. -/
def registerSubagentRun (s : SubagentRunSpec) (reg : Registry) : Registry :=
  runOfSpec s :: reg

/-- Modelled from the spec: markSubagentRunForSteerRestart flags a currently
known and active run so its next terminal event is consumed silently; marking
an unknown run returns false, not an exception. -/
def markSubagentRunForSteerRestart (runId : String) : Registry → Registry × Bool
  | [] => ([], false)
  | ru :: rest =>
      if ru.runId = runId ∧ ru.active then
        ({ ru with steerRestart := true } :: rest, true)
      else
        let r2 := markSubagentRunForSteerRestart runId rest
        (ru :: r2.1, r2.2)

/-- Modelled from the spec: handling of a terminal lifecycle event for a run.
A marked run consumes the event silently, recording that it ended while
suppressed; an unmarked active run is terminated and announced (the returned
list is the childRunId values handed to the announce flow); an unknown or
already-terminated run is a no-op, making duplicate terminal events
idempotent. -/
def handleLifecycleEnd (runId : String) : Registry → Registry × List String
  | [] => ([], [])
  | ru :: rest =>
      if ru.runId = runId ∧ ru.active then
        if ru.steerRestart then
          ({ ru with endedWhileSuppressed := true } :: rest, [])
        else
          ({ ru with active := false,
                     outcome := some (ru.outcome.getD RunOutcome.ok) } :: rest, [runId])
      else
        let r2 := handleLifecycleEnd runId rest
        (ru :: r2.1, r2.2)

/-- A lifecycle event as delivered by the agent-events bridge. -/
structure AgentLifecycleEvent where
  stream : String
  runId : String
  phase : String
  deriving Repr, DecidableEq

/-- Modelled from the spec: the registry's lifecycle subscription reacts only
to events of the lifecycle stream whose phase is "end". -/
def handleAgentEvent (evt : AgentLifecycleEvent) (reg : Registry) :
    Registry × List String :=
  if evt.stream = "lifecycle" ∧ evt.phase = "end" then
    handleLifecycleEnd evt.runId reg
  else (reg, [])

/-- Modelled from the spec: replaceSubagentRunAfterSteer atomically removes
the previous run record and installs a new active run under nextRunId with a
newly derived child session key, preserving requester lineage from the still
present previous record or from the supplied fallback snapshot; it returns
false when neither source of lineage is available. -/
def replaceSubagentRunAfterSteer (previousRunId nextRunId : String)
    (fallback : Option SubagentRun) (reg : Registry) : Registry × Bool :=
  match (reg.find? (fun ru => ru.runId == previousRunId)).orElse (fun _ => fallback) with
  | none => (reg, false)
  | some lineage =>
      let removed := reg.filter (fun ru => ru.runId != previousRunId)
      let newRun : SubagentRun :=
        { runId := nextRunId,
          childSessionKey := lineage.requesterSessionKey ++ ":subagent:" ++ nextRunId,
          requesterSessionKey := lineage.requesterSessionKey,
          requesterDisplayKey := lineage.requesterDisplayKey,
          task := lineage.task, cleanup := lineage.cleanup,
          steerRestart := false, endedWhileSuppressed := false,
          outcome := none, cleanupHandled := false, cleanupCompletedAt := none,
          active := true }
      (newRun :: removed, true)

/-- Modelled from the spec: clearSubagentRunSteerRestart reverses the
suppression of a marked run; when the terminal event already arrived while
suppressed the clear retroactively terminates the run and releases exactly one
announce for the original run, else it only removes the mark so the next
terminal event announces normally; clearing an unknown or unmarked run
returns false. -/
def clearSubagentRunSteerRestart (runId : String) :
    Registry → Registry × Bool × List String
  | [] => ([], false, [])
  | ru :: rest =>
      if ru.runId = runId ∧ ru.steerRestart then
        if ru.endedWhileSuppressed then
          ({ ru with steerRestart := false, endedWhileSuppressed := false,
                     active := false,
                     outcome := some (ru.outcome.getD RunOutcome.ok) } :: rest, true, [runId])
        else
          ({ ru with steerRestart := false } :: rest, true, [])
      else
        let r2 := clearSubagentRunSteerRestart runId rest
        (ru :: r2.1, r2.2.1, r2.2.2)

/-- Modelled from the spec: markSubagentRunTerminated records an error outcome
with the kill reason on every still-active run of the child session key, marks
cleanup handled, stamps cleanupCompletedAt and deactivates, returning the
number of records updated. -/
def markSubagentRunTerminated (childSessionKey reason : String) (now : Nat) :
    Registry → Registry × Nat
  | [] => ([], 0)
  | ru :: rest =>
      let r2 := markSubagentRunTerminated childSessionKey reason now rest
      if ru.childSessionKey = childSessionKey ∧ ru.active then
        ({ ru with outcome := some (RunOutcome.error reason),
                   cleanupHandled := true, cleanupCompletedAt := some now,
                   active := false } :: r2.1, r2.2 + 1)
      else (ru :: r2.1, r2.2)

/-- Modelled from the spec: a child session is active while some run under its
key is registered, active or steer-pending. -/
def isSubagentSessionRunActive (childSessionKey : String) (reg : Registry) : Bool :=
  reg.any (fun ru => ru.childSessionKey == childSessionKey && ru.active)

/-- Modelled from the spec: listSubagentRunsForRequester returns the runs
spawned by a requester session. -/
def listSubagentRunsForRequester (requesterSessionKey : String) (reg : Registry) :
    Registry :=
  reg.filter (fun ru => ru.requesterSessionKey == requesterSessionKey)

/-- C1: steer-restart success path. Register a run, mark it (true), deliver
its terminal lifecycle event (suppressed: zero announces), replace it with the
successor run (true), deliver the successor's terminal event: the announce
flow fires exactly once across the whole sequence, with childRunId equal to
the new run id. -/
theorem steer_restart_success_single_announce (r : SubagentRunSpec) (n : String)
    (fb : Option SubagentRun) :
    (markSubagentRunForSteerRestart r.runId (registerSubagentRun r [])).2 = true ∧
    (handleAgentEvent ⟨"lifecycle", r.runId, "end"⟩
      (markSubagentRunForSteerRestart r.runId (registerSubagentRun r [])).1).2 = [] ∧
    (replaceSubagentRunAfterSteer r.runId n fb
      (handleAgentEvent ⟨"lifecycle", r.runId, "end"⟩
        (markSubagentRunForSteerRestart r.runId (registerSubagentRun r [])).1).1).2 = true ∧
    (handleAgentEvent ⟨"lifecycle", n, "end"⟩
      (replaceSubagentRunAfterSteer r.runId n fb
        (handleAgentEvent ⟨"lifecycle", r.runId, "end"⟩
          (markSubagentRunForSteerRestart r.runId (registerSubagentRun r [])).1).1).1).2 =
      [n] := by
  simp [registerSubagentRun, runOfSpec, markSubagentRunForSteerRestart,
    handleAgentEvent, handleLifecycleEnd, replaceSubagentRunAfterSteer,
    List.find?, List.filter, Option.orElse]

/-- C2: steer-restart failure path. With the terminal event already consumed
while suppressed, clearing the mark returns true and retroactively fires
exactly one announce identifying the original run; when the flag is cleared
before any terminal event, the clear fires no announce and the next terminal
event for the original run announces it normally. -/
theorem steer_restart_failure_restores_announce (r : SubagentRunSpec) :
    (handleAgentEvent ⟨"lifecycle", r.runId, "end"⟩
      (markSubagentRunForSteerRestart r.runId (registerSubagentRun r [])).1).2 = [] ∧
    (clearSubagentRunSteerRestart r.runId
      (handleAgentEvent ⟨"lifecycle", r.runId, "end"⟩
        (markSubagentRunForSteerRestart r.runId (registerSubagentRun r [])).1).1).2.1 =
      true ∧
    (clearSubagentRunSteerRestart r.runId
      (handleAgentEvent ⟨"lifecycle", r.runId, "end"⟩
        (markSubagentRunForSteerRestart r.runId (registerSubagentRun r [])).1).1).2.2 =
      [r.runId] ∧
    (clearSubagentRunSteerRestart r.runId
      (markSubagentRunForSteerRestart r.runId (registerSubagentRun r [])).1).2.1 = true ∧
    (clearSubagentRunSteerRestart r.runId
      (markSubagentRunForSteerRestart r.runId (registerSubagentRun r [])).1).2.2 = [] ∧
    (handleAgentEvent ⟨"lifecycle", r.runId, "end"⟩
      (clearSubagentRunSteerRestart r.runId
        (markSubagentRunForSteerRestart r.runId (registerSubagentRun r [])).1).1).2 =
      [r.runId] := by
  simp [registerSubagentRun, runOfSpec, markSubagentRunForSteerRestart,
    handleAgentEvent, handleLifecycleEnd, clearSubagentRunSteerRestart]

/-- C7: killing a registered run by child session key updates exactly one
record on the first call, records the error outcome with the kill reason,
marks cleanup handled with a completion stamp, deactivates the session, and is
idempotent: a second call updates nothing and the session stays inactive. -/
theorem markSubagentRunTerminated_idempotent (r : SubagentRunSpec)
    (reason reason2 : String) (t1 t2 : Nat) :
    isSubagentSessionRunActive r.childSessionKey (registerSubagentRun r []) = true ∧
    (markSubagentRunTerminated r.childSessionKey reason t1
      (registerSubagentRun r [])).2 = 1 ∧
    (markSubagentRunTerminated r.childSessionKey reason t1
      (registerSubagentRun r [])).1.map
        (fun ru => (ru.outcome, ru.cleanupHandled, ru.cleanupCompletedAt)) =
      [(some (RunOutcome.error reason), true, some t1)] ∧
    isSubagentSessionRunActive r.childSessionKey
      (markSubagentRunTerminated r.childSessionKey reason t1
        (registerSubagentRun r [])).1 = false ∧
    (markSubagentRunTerminated r.childSessionKey reason2 t2
      (markSubagentRunTerminated r.childSessionKey reason t1
        (registerSubagentRun r [])).1).2 = 0 ∧
    isSubagentSessionRunActive r.childSessionKey
      (markSubagentRunTerminated r.childSessionKey reason2 t2
        (markSubagentRunTerminated r.childSessionKey reason t1
          (registerSubagentRun r [])).1).1 = false := by
  simp [registerSubagentRun, runOfSpec, markSubagentRunTerminated,
    isSubagentSessionRunActive]

/-- The count of currently-active runs whose requesterSessionKey equals the
caller, modelled from the spec's concurrency limit. -/
def countActiveChildrenForRequester (requesterSessionKey : String)
    (reg : Registry) : Nat :=
  (reg.filter (fun ru => ru.requesterSessionKey == requesterSessionKey && ru.active)).length

/-- Result of the child-concurrency admission check of the sessions-spawn
tool. -/
structure ChildLimitCheck where
  allowed : Bool
  activeCount : Nat
  maxChildren : Option Nat
  deriving Repr, DecidableEq

/-- Modelled from the spec: the sessions-spawn tool (not in the snapshot)
counts the currently-active runs of the requester session and rejects with a
forbidden result carrying the active count and maxChildrenPerAgent when the
count has already reached the configured cap; with the cap unset no
concurrency limit is applied. -/
def checkMaxChildrenPerAgent (maxChildrenPerAgent : Option Nat)
    (requesterSessionKey : String) (reg : Registry) : ChildLimitCheck :=
  let active := countActiveChildrenForRequester requesterSessionKey reg
  match maxChildrenPerAgent with
  | none => { allowed := true, activeCount := active, maxChildren := none }
  | some m =>
      if m ≤ active then
        { allowed := false, activeCount := active, maxChildren := some m }
      else
        { allowed := true, activeCount := active, maxChildren := some m }

/-- C8: a spawn request is rejected, with the active count and the cap in the
result, exactly when the number of currently-active runs of the requester has
reached maxChildrenPerAgent; an unset cap never rejects. -/
theorem checkMaxChildrenPerAgent_cap (q : String) (m : Nat) (reg : Registry) :
    ((m ≤ countActiveChildrenForRequester q reg) →
      (checkMaxChildrenPerAgent (some m) q reg).allowed = false ∧
      (checkMaxChildrenPerAgent (some m) q reg).activeCount =
        countActiveChildrenForRequester q reg ∧
      (checkMaxChildrenPerAgent (some m) q reg).maxChildren = some m) ∧
    ((countActiveChildrenForRequester q reg < m) →
      (checkMaxChildrenPerAgent (some m) q reg).allowed = true) ∧
    (checkMaxChildrenPerAgent none q reg).allowed = true := by
  refine ⟨fun h => ?_, fun h => ?_, rfl⟩
  · simp [checkMaxChildrenPerAgent, if_pos h]
  · simp [checkMaxChildrenPerAgent, if_neg (not_le.mpr h)]

/-- C8 witness: one already-active child of the requester under cap 1 rejects
the next spawn with the pair (1, 1) in the result. -/
theorem checkMaxChildrenPerAgent_cap_witness :
    (checkMaxChildrenPerAgent (some 1) "agent:main:subagent:parent"
      (registerSubagentRun
        { runId := "existing-run",
          childSessionKey := "agent:main:subagent:existing",
          requesterSessionKey := "agent:main:subagent:parent",
          requesterDisplayKey := "agent:main:subagent:parent",
          task := "existing", cleanup := "keep" } [])).allowed = false := by
  exact ((checkMaxChildrenPerAgent_cap "agent:main:subagent:parent" 1
    (registerSubagentRun
      { runId := "existing-run",
        childSessionKey := "agent:main:subagent:existing",
        requesterSessionKey := "agent:main:subagent:parent",
        requesterDisplayKey := "agent:main:subagent:parent",
        task := "existing", cleanup := "keep" } [])).1 (by decide)).1
